import Mathlib

/-!
Verification development for the camera web app (`script.js`).

The app is single-threaded browser JS. We shallowly embed its core logic:

* `buildFilterString` — the pure numeric payload (brightness, contrast,
  saturation) that the source interpolates into a CSS filter string,
  plus the `currentFilter === "film"` grain test from `drawFrame`;
* the crop rectangle computed inside `drawFrame`;
* `setZoom`'s clamping core, and the zoom-updating event handlers
  (slider input, pinch move, maxZoom change) as a step function on a
  small view-state record;
* `renderLoop`'s frame-interval gate as a step function on the
  `lastFrameTime` baseline, with JS `%` (fmod) on rationals;
* the recording lifecycle (`startRecording` / `stopRecording` /
  `updateRecordTimer` / `saveVideo` and the MediaRecorder event
  handlers the source installs) as a step function over an event trace;
* `initCamera`'s teardown-then-acquire ordering as a list of atomic
  actions on the set of held camera handles.

JS numbers are embedded as ℚ (every literal in the source is exactly
representable; no rounding matters at the scales involved).
-/

namespace Cam

/-- Truncation toward zero on ℚ, matching how JS converts the quotient
when computing `a % b` (fmod keeps the sign of the dividend). -/
def jsTrunc (q : ℚ) : ℤ :=
  if 0 ≤ q then ⌊q⌋ else ⌈q⌉

/-- JS remainder operator `a % b` on finite numbers:
`a - b * trunc(a / b)`. -/
def jsFmod (a b : ℚ) : ℚ :=
  a - b * (jsTrunc (a / b) : ℚ)

/-! ### Filter pipeline (`buildFilterString`, lines 84–99, and the grain
test in `drawFrame`, line 175) -/

/-- Numeric payload of the CSS filter string built by
`buildFilterString`: `brightness(b) contrast(c) saturate(s)`. -/
structure FilterSettings where
  brightness : ℚ
  contrast : ℚ
  saturation : ℚ
deriving Repr, DecidableEq

/-- Embedding of `buildFilterString` (src/script.js lines 84–99): the
three numbers it computes from the shared `exposure` and
`currentFilter` state and interpolates into the returned string. -/
def buildFilterString (exposure : ℚ) (currentFilter : String) : FilterSettings :=
  let brightness := 1 + exposure * (15 / 100)
  let contrast := if currentFilter = "cinema" then 115 / 100 else 1
  let saturation :=
    if currentFilter = "bw" then 0
    else if currentFilter = "vivid" then 13 / 10
    else 1
  { brightness := brightness, contrast := contrast, saturation := saturation }

/-- Embedding of the grain test in `drawFrame` (line 175): the film
grain pass runs iff `currentFilter === "film"`. -/
def grainApplied (currentFilter : String) : Bool :=
  currentFilter = "film"

/-! ### Crop rectangle (`drawFrame`, lines 161–173) -/

/-- Source-space crop rectangle passed to `ctx.drawImage`. -/
structure CropRect where
  sx : ℚ
  sy : ℚ
  sw : ℚ
  sh : ℚ
deriving Repr, DecidableEq

/-- Embedding of the crop computation inside `drawFrame`
(lines 166–169): `zoomedW = vw / zoom`, `zoomedH = vh / zoom`,
`sx = (vw - zoomedW) / 2`, `sy = (vh - zoomedH) / 2`; the rectangle
`(sx, sy, zoomedW, zoomedH)` is the source rect of `drawImage`. -/
def drawFrameCrop (vw vh zoom : ℚ) : CropRect :=
  let zoomedW := vw / zoom
  let zoomedH := vh / zoom
  let sx := (vw - zoomedW) / 2
  let sy := (vh - zoomedH) / 2
  { sx := sx, sy := sy, sw := zoomedW, sh := zoomedH }

/-! ### Zoom clamping (`setZoom`, lines 264–267) and the handlers that
update zoom -/

/-- Clamping core of `setZoom`:
`zoom = Math.min(Math.max(value, 1), maxZoom)`. -/
def setZoom (maxZoom value : ℚ) : ℚ :=
  min (max value 1) maxZoom

/-- The mutable state touched by the zoom-updating handlers:
`zoom`, `maxZoom`, and `pinchStartZoom` (captured on `touchstart`). -/
structure ViewState where
  zoom : ℚ
  maxZoom : ℚ
  pinchStartZoom : ℚ
deriving Repr, DecidableEq

/-- The UI events of the source that write to `zoom` or `maxZoom`:
`zoomSlider` input (line 269), two-finger `touchstart` (line 224),
two-finger `touchmove` (line 235), and `maxZoomSelect` change
(line 400). `pinchMove` carries the start and current pinch distances. -/
inductive ZoomEvent where
  | sliderInput (v : ℚ)
  | pinchBegin
  | pinchMove (startDist dist : ℚ)
  | maxZoomChange (m : ℚ)
deriving Repr, DecidableEq

/-- Embedding of the four handlers: slider input calls
`setZoom(parseFloat(zoomSlider.value))`; `touchstart` stores
`pinchStartZoom = zoom`; `touchmove` calls
`setZoom(pinchStartZoom * (dist / pinchStartDistance))`;
`maxZoomSelect` change sets `maxZoom` then calls `setZoom(zoom)`. -/
def zoomStep (s : ViewState) : ZoomEvent → ViewState
  | .sliderInput v =>
      { s with zoom := setZoom s.maxZoom v }
  | .pinchBegin =>
      { s with pinchStartZoom := s.zoom }
  | .pinchMove startDist dist =>
      { s with zoom := setZoom s.maxZoom (s.pinchStartZoom * (dist / startDist)) }
  | .maxZoomChange m =>
      { s with maxZoom := m, zoom := setZoom m s.zoom }

/-! ### Render loop (`renderLoop`, lines 146–156, and the readiness
guard of `drawFrame`, line 159) -/

/-- The state `renderLoop` threads between scheduling ticks. -/
structure LoopState where
  lastFrameTime : ℚ
deriving Repr, DecidableEq

/-- Result of one scheduling tick: the updated state, whether the
frame-interval gate accepted (so `lastFrameTime` was rewritten and
`drawFrame` was invoked), and whether a frame was actually composited
(`drawFrame` returns immediately when `video.readyState < 2`). -/
structure TickResult where
  state : LoopState
  drawCalled : Bool
  composited : Bool
deriving Repr, DecidableEq

/-- Embedding of one `renderLoop` tick (lines 146–153): with
`delta = now - lastFrameTime` and `frameInterval = 1000 / targetFPS`,
if `delta >= frameInterval` then `lastFrameTime` becomes
`now - (delta % frameInterval)` and `drawFrame()` runs, which
composites only when the source is ready. Otherwise nothing changes. -/
def renderTick (targetFPS : ℚ) (ready : Bool) (s : LoopState) (now : ℚ) : TickResult :=
  let delta := now - s.lastFrameTime
  let frameInterval := 1000 / targetFPS
  if frameInterval ≤ delta then
    { state := { lastFrameTime := now - jsFmod delta frameInterval }
      drawCalled := true
      composited := ready }
  else
    { state := s, drawCalled := false, composited := false }

/-- Run the render loop (with a ready source) over a list of scheduling
tick times, counting accepted draws. -/
def runTicks (targetFPS : ℚ) (s : LoopState) : List ℚ → LoopState × Nat
  | [] => (s, 0)
  | t :: ts =>
      let r := renderTick targetFPS true s t
      let rest := runTicks targetFPS r.state ts
      (rest.1, (if r.drawCalled then 1 else 0) + rest.2)

/-! ### Recording lifecycle (`startRecording` lines 311–326,
`stopRecording` lines 328–333, `updateRecordTimer` lines 335–342,
`saveVideo` lines 344–352) -/

/-- The mutable recording state of the source, plus bookkeeping the
proofs read off: `savedFiles` collects the chunk list each `saveVideo`
call turned into a file, and `ticksAfterStop` counts elapsed-time
timer callbacks that fired while `recording` was already false. -/
structure RecState where
  recording : Bool
  recordedChunks : List Nat
  timerScheduled : Bool
  savedFiles : List (List Nat)
  ticksAfterStop : Nat
deriving Repr, DecidableEq

/-- Events delivered to the recording code by the user and the
platform: the capture-button paths `startRec` / `stopRec`, a
MediaRecorder `dataavailable` delivery (the installed handler pushes
onto `recordedChunks`), the MediaRecorder `stop` event (the installed
handler is `saveVideo`), one `requestAnimationFrame` timer callback,
and a MediaRecorder `error` event (sink failure — the source installs
no handler for it). -/
inductive RecEvent where
  | startRec
  | dataAvailable (chunk : Nat)
  | recorderStop
  | timerTick
  | stopRec
  | sinkError
deriving Repr, DecidableEq

/-- Embedding of the recording code, one event at a time.

`startRec` = `startRecording`: clears `recordedChunks`, installs the
handlers, starts the recorder, sets `recording = true`, and calls
`updateRecordTimer`, which (as `recording` is now true) schedules the
next timer callback.

`dataAvailable c` = the `ondataavailable` handler:
`recordedChunks.push(e.data)`.

`recorderStop` = the `onstop` handler `saveVideo`: builds one Blob from
`recordedChunks` in order and triggers its download.

`timerTick` = a `requestAnimationFrame` delivery of
`updateRecordTimer`; it can only fire while scheduled; if `recording`
is false it returns without rescheduling, otherwise it updates the
display and reschedules itself.

`stopRec` = `stopRecording`: sets `recording = false`, calls
`mediaRecorder.stop()`, and cancels the pending timer callback.

`sinkError` = a MediaRecorder `error` event: the source installs no
`onerror` handler, so the state is untouched. -/
def recStep (s : RecState) : RecEvent → RecState
  | .startRec =>
      { s with recording := true, recordedChunks := [], timerScheduled := true }
  | .dataAvailable c =>
      { s with recordedChunks := s.recordedChunks ++ [c] }
  | .recorderStop =>
      { s with savedFiles := s.savedFiles ++ [s.recordedChunks] }
  | .timerTick =>
      if s.timerScheduled then
        if s.recording then s
        else { s with timerScheduled := false, ticksAfterStop := s.ticksAfterStop + 1 }
      else s
  | .stopRec =>
      { s with recording := false, timerScheduled := false }
  | .sinkError => s

/-- Run a trace of recording events. -/
def recRun (s : RecState) : List RecEvent → RecState
  | [] => s
  | e :: es => recRun (recStep s e) es

/-! ### Camera acquisition (`initCamera`, lines 104–126, and the
facing/frame-rate change handlers, lines 380–383 and 395–398) -/

/-- Atomic resource actions `initCamera` performs on camera handles:
stopping every track of a held stream, and acquiring a new stream via
`getUserMedia`. -/
inductive CamAction where
  | stopTracks (h : Nat)
  | acquire (h : Nat)
deriving Repr, DecidableEq

/-- Embedding of `initCamera`'s resource behaviour (lines 104–119): if
a stream is currently held, its tracks are stopped first; only then is
the new stream acquired. Both the `switchCameraBtn` handler and the
`fpsSelect` handler reach acquisition only through this function. -/
def initCameraActions (current : Option Nat) (newHandle : Nat) : List CamAction :=
  (match current with
   | some h => [CamAction.stopTracks h]
   | none => []) ++ [CamAction.acquire newHandle]

/-- Effect of one action on the list of held camera handles. -/
def applyCamAction (held : List Nat) : CamAction → List Nat
  | .stopTracks h => held.filter (fun x => x ≠ h)
  | .acquire h => held ++ [h]

/-- Every intermediate list of held handles while a list of actions
runs, the starting state included. -/
def camStates (held : List Nat) : List CamAction → List (List Nat)
  | [] => [held]
  | a :: as => held :: camStates (applyCamAction held a) as

/-- Event trace of one recording session: `startRecording`, a first
phase of chunk deliveries, `stopRecording`, a second phase of chunk
deliveries (the flush a recorder emits after stop is requested), and
finally the recorder's `stop` event, which runs `saveVideo`. -/
def recSession (cs1 cs2 : List Nat) : List RecEvent :=
  [RecEvent.startRec] ++ cs1.map RecEvent.dataAvailable ++ [RecEvent.stopRec]
    ++ cs2.map RecEvent.dataAvailable ++ [RecEvent.recorderStop]

/-- Invariant the zoom state is claimed to keep: a well-formed bound
and a zoom inside it. -/
def ZoomInv (s : ViewState) : Prop :=
  1 ≤ s.maxZoom ∧ 1 ≤ s.zoom ∧ s.zoom ≤ s.maxZoom

/-- Well-formedness of an incoming zoom event: a maxZoom change
carries one of the enumerated bounds of the settings drawer, all of
which are at least 1; other events are unconstrained. -/
def eventWellFormed : ZoomEvent → Prop
  | .maxZoomChange m => 1 ≤ m
  | _ => True

/-! ### Helper lemmas -/

theorem setZoom_bounds (M v : ℚ) (h : 1 ≤ M) :
    1 ≤ setZoom M v ∧ setZoom M v ≤ M := by
  constructor
  · exact le_min (le_max_right v 1) h
  · exact min_le_right _ _

theorem setZoom_idem (M v : ℚ) :
    setZoom M (setZoom M v) = setZoom M v := by
  unfold setZoom
  rcases le_total M 1 with hM | hM
  · have h1 : min (max v 1) M = M :=
      min_eq_right (le_trans hM (le_max_right v 1))
    rw [h1, max_eq_right hM]
    exact min_eq_right hM
  · have h1 : 1 ≤ min (max v 1) M := le_min (le_max_right v 1) hM
    have h2 : min (max v 1) M ≤ M := min_le_right _ _
    rw [max_eq_left h1, min_eq_left h2]

theorem recRun_append (s : RecState) (l1 l2 : List RecEvent) :
    recRun s (l1 ++ l2) = recRun (recRun s l1) l2 := by
  induction l1 generalizing s with
  | nil => rfl
  | cons e es ih => simp [recRun, ih]

theorem recRun_data (s : RecState) (cs : List Nat) :
    recRun s (cs.map RecEvent.dataAvailable)
      = { s with recordedChunks := s.recordedChunks ++ cs } := by
  induction cs generalizing s with
  | nil => simp [recRun]
  | cons c cs ih => simp [recRun, recStep, ih]

/-! ### Claim theorems -/

/-- Claim C1: a tick composites only when the elapsed time since the
last accepted draw is at least `1000 / targetFPS`; on an accepted tick
the new baseline is the tick time minus `elapsed % (1000 / targetFPS)`
(so the remainder carries forward) and `drawFrame` runs; a rejected
tick changes nothing; and with `targetFPS = 30`, ticks at 10, 20 and
45 ms after the baseline produce exactly one accepted draw. -/
theorem renderLoop_frame_gating (fps : ℚ) (ready : Bool) (s : LoopState) (now : ℚ) :
    ((renderTick fps ready s now).composited = true →
        1000 / fps ≤ now - s.lastFrameTime ∧ ready = true)
    ∧ (1000 / fps ≤ now - s.lastFrameTime →
        (renderTick fps ready s now).state.lastFrameTime
            = now - jsFmod (now - s.lastFrameTime) (1000 / fps)
        ∧ (renderTick fps ready s now).drawCalled = true)
    ∧ (¬ 1000 / fps ≤ now - s.lastFrameTime →
        renderTick fps ready s now = ⟨s, false, false⟩)
    ∧ (runTicks 30 ⟨0⟩ [10, 20, 45]).2 = 1 := by
  refine ⟨?_, ?_, ?_, ?_⟩
  · intro hc
    by_cases h : 1000 / fps ≤ now - s.lastFrameTime
    · simpa [renderTick, h] using hc
    · simp [renderTick, h] at hc
  · intro h
    simp [renderTick, h]
  · intro h
    simp [renderTick, h]
  · simp [runTicks, renderTick, jsFmod, jsTrunc]
    norm_num

/-- Witness for C1 at `targetFPS = 30`, baseline 0, tick at 50 ms:
the gate accepts and rebases to `50 - 50 % (1000 / 30)`. -/
theorem renderLoop_frame_gating_witness :
    (renderTick 30 true ⟨0⟩ 50).state.lastFrameTime
        = 50 - jsFmod (50 - 0) (1000 / 30)
    ∧ (renderTick 30 true ⟨0⟩ 50).drawCalled = true :=
  (renderLoop_frame_gating 30 true ⟨0⟩ 50).2.1 (by norm_num)

/-- Counterexample to C2 as stated: at `targetFPS = 30`, baseline 0
and an unready source, the tick at 50 ms skips compositing yet moves
`lastFrameTime` from 0 to `100 / 3` — the baseline is NOT left
unchanged on every unready tick. -/
theorem unready_tick_baseline_counterexample :
    (renderTick 30 false ⟨0⟩ 50).composited = false
    ∧ (renderTick 30 false ⟨0⟩ 50).state.lastFrameTime = 100 / 3
    ∧ (renderTick 30 false ⟨0⟩ 50).state.lastFrameTime ≠ (0 : ℚ) := by
  refine ⟨?_, ?_, ?_⟩ <;> simp [renderTick, jsFmod, jsTrunc] <;> norm_num

/-- Claim C2 amended: on an unready tick nothing is composited (the
readiness guard in `drawFrame` returns, no error); the baseline is
unchanged when the elapsed time is below the frame interval, but when
the interval gate accepts, `lastFrameTime` is still advanced to
`now - elapsed % interval` even though no frame is drawn, because
`renderLoop` rewrites it before `drawFrame` checks readiness. -/
theorem unready_tick_behavior (fps : ℚ) (s : LoopState) (now : ℚ) :
    (renderTick fps false s now).composited = false
    ∧ (¬ 1000 / fps ≤ now - s.lastFrameTime →
        renderTick fps false s now = ⟨s, false, false⟩)
    ∧ (1000 / fps ≤ now - s.lastFrameTime →
        (renderTick fps false s now).state.lastFrameTime
          = now - jsFmod (now - s.lastFrameTime) (1000 / fps)
        ∧ (renderTick fps false s now).drawCalled = true) := by
  refine ⟨?_, ?_, ?_⟩
  · by_cases h : 1000 / fps ≤ now - s.lastFrameTime <;> simp [renderTick, h]
  · intro h; simp [renderTick, h]
  · intro h; simp [renderTick, h]

/-- Witness for the amended C2: a below-interval unready tick is a
no-op, and an at-interval unready tick rebases the baseline. -/
theorem unready_tick_behavior_witness :
    renderTick 30 false ⟨0⟩ 10 = ⟨⟨0⟩, false, false⟩
    ∧ (renderTick 30 false ⟨0⟩ 50).state.lastFrameTime
        = 50 - jsFmod (50 - 0) (1000 / 30) :=
  ⟨(unready_tick_behavior 30 ⟨0⟩ 10).2.1 (by norm_num),
   ((unready_tick_behavior 30 ⟨0⟩ 50).2.2 (by norm_num)).1⟩

/-- Claim C3: the crop rectangle drawn by `drawFrame` is the centered
rectangle `((w - w / zoom) / 2, (h - h / zoom) / 2, w / zoom,
h / zoom)`, and at `zoom = 1` it is the full frame `(0, 0, w, h)`. -/
theorem drawFrameCrop_centered (w h zoom : ℚ) :
    drawFrameCrop w h zoom
      = ⟨(w - w / zoom) / 2, (h - h / zoom) / 2, w / zoom, h / zoom⟩
    ∧ drawFrameCrop w h 1 = ⟨0, 0, w, h⟩ := by
  refine ⟨rfl, ?_⟩
  simp [drawFrameCrop]

/-- Claim C4: the filter descriptor is the deterministic value of a
pure function of exposure and filter name: brightness is
`1 + exposure * k` with sensitivity constant `k = 15 / 100`, contrast
is `115 / 100` exactly for `cinema`, saturation is 0 for `bw` and
`13 / 10` for `vivid` and 1 otherwise, and the grain pass runs iff the
filter is `film`. -/
theorem buildFilterString_descriptor (exposure : ℚ) (name : String) :
    buildFilterString exposure name
      = ⟨1 + exposure * (15 / 100),
         if name = "cinema" then 115 / 100 else 1,
         if name = "bw" then 0 else if name = "vivid" then 13 / 10 else 1⟩
    ∧ (grainApplied name = true ↔ name = "film") := by
  refine ⟨rfl, ?_⟩
  simp [grainApplied]

/-- Claim C5: for a well-formed bound `1 ≤ maxZoom`, `setZoom` lands
in `[1, maxZoom]` and is idempotent. -/
theorem setZoom_clamps_and_idem (M v : ℚ) (h : 1 ≤ M) :
    1 ≤ setZoom M v ∧ setZoom M v ≤ M
    ∧ setZoom M (setZoom M v) = setZoom M v := by
  obtain ⟨a, b⟩ := setZoom_bounds M v h
  exact ⟨a, b, setZoom_idem M v⟩

/-- Witness for C5 at `maxZoom = 5`, input 7. -/
theorem setZoom_clamps_and_idem_witness :
    1 ≤ setZoom 5 7 ∧ setZoom 5 7 ≤ 5
    ∧ setZoom 5 (setZoom 5 7) = setZoom 5 7 :=
  setZoom_clamps_and_idem 5 7 (by norm_num)

/-- Claim C6: every zoom-updating handler — slider input, pinch
gesture (`pinchStartZoom * (dist / startDist)`), and a change of the
maxZoom setting — preserves `1 ≤ zoom ≤ maxZoom`, so an out-of-range
zoom is never stored. -/
theorem zoom_invariant_preserved (s : ViewState) (e : ZoomEvent)
    (hs : ZoomInv s) (he : eventWellFormed e) : ZoomInv (zoomStep s e) := by
  obtain ⟨hM, hz1, hz2⟩ := hs
  cases e with
  | sliderInput v =>
      obtain ⟨a, b⟩ := setZoom_bounds s.maxZoom v hM
      exact ⟨hM, a, b⟩
  | pinchBegin => exact ⟨hM, hz1, hz2⟩
  | pinchMove sd d =>
      obtain ⟨a, b⟩ := setZoom_bounds s.maxZoom (s.pinchStartZoom * (d / sd)) hM
      exact ⟨hM, a, b⟩
  | maxZoomChange m =>
      obtain ⟨a, b⟩ := setZoom_bounds m s.zoom he
      exact ⟨he, a, b⟩

/-- Witness for C6: from zoom 2 with maxZoom 5, changing maxZoom to 3
keeps the invariant. -/
theorem zoom_invariant_preserved_witness :
    ZoomInv (zoomStep ⟨2, 5, 1⟩ (ZoomEvent.maxZoomChange 3)) :=
  zoom_invariant_preserved ⟨2, 5, 1⟩ (ZoomEvent.maxZoomChange 3)
    ⟨by norm_num, by norm_num, by norm_num⟩ (by norm_num [eventWellFormed])

/-- Claim C7: `startRecording` clears the chunk buffer; a start
followed by a stop finalizes exactly one new file holding every chunk
delivered between them, in arrival order; the tick-after-stop counter
stays at its starting value and, the timer callback having been
cancelled, a further timer event leaves the final state untouched. -/
theorem recording_session_single_file (s : RecState) (cs1 cs2 : List Nat) :
    (recStep s RecEvent.startRec).recordedChunks = []
    ∧ recRun s (recSession cs1 cs2)
        = { recording := false, recordedChunks := cs1 ++ cs2,
            timerScheduled := false,
            savedFiles := s.savedFiles ++ [cs1 ++ cs2],
            ticksAfterStop := s.ticksAfterStop }
    ∧ recStep (recRun s (recSession cs1 cs2)) RecEvent.timerTick
        = recRun s (recSession cs1 cs2) := by
  have hrun : recRun s (recSession cs1 cs2)
      = { recording := false, recordedChunks := cs1 ++ cs2,
          timerScheduled := false,
          savedFiles := s.savedFiles ++ [cs1 ++ cs2],
          ticksAfterStop := s.ticksAfterStop } := by
    simp [recSession, recRun_append, recRun, recRun_data, recStep]
  refine ⟨rfl, hrun, ?_⟩
  rw [hrun]
  simp [recStep]

/-- Claim C8, evaluated at the failing input: starting a recording,
receiving chunk 7 and then a recorder sink failure leaves
`recording = true` (not reset to Stopped), the chunk retained and the
timer still scheduled, because the source installs no error handler;
and the stop event the platform fires afterwards finalizes the
retained chunk into a file instead of discarding it. -/
theorem sink_failure_no_abort :
    recRun ⟨false, [], false, [], 0⟩
        [RecEvent.startRec, RecEvent.dataAvailable 7, RecEvent.sinkError]
      = ⟨true, [7], true, [], 0⟩
    ∧ recRun ⟨false, [], false, [], 0⟩
        [RecEvent.startRec, RecEvent.dataAvailable 7, RecEvent.sinkError,
          RecEvent.recorderStop]
      = ⟨true, [7], true, [[7]], 0⟩ :=
  ⟨rfl, rfl⟩

/-- Claim C9: `initCamera` stops the tracks of the held stream before
acquiring the new one (the stop action precedes the acquire action in
its action list), and along the run of those actions the number of
held camera handles never exceeds one. -/
theorem initCamera_stop_before_acquire (oldH newH : Nat) :
    initCameraActions (some oldH) newH
      = [CamAction.stopTracks oldH, CamAction.acquire newH]
    ∧ initCameraActions none newH = [CamAction.acquire newH]
    ∧ ((camStates [oldH] (initCameraActions (some oldH) newH)).all
        (fun st => st.length ≤ 1)) = true
    ∧ ((camStates [] (initCameraActions none newH)).all
        (fun st => st.length ≤ 1)) = true := by
  refine ⟨rfl, rfl, ?_, ?_⟩ <;>
    simp [camStates, initCameraActions, applyCamAction, List.filter]

/-- Claim C10: any filter name outside the recognized set behaves
exactly as `none`: same descriptor, contrast 1, saturation 1, and no
grain pass. -/
theorem unknown_filter_acts_as_none (e : ℚ) (n : String)
    (h1 : n ≠ "cinema") (h2 : n ≠ "bw") (h3 : n ≠ "vivid") (h4 : n ≠ "film") :
    buildFilterString e n = buildFilterString e "none"
    ∧ (buildFilterString e n).contrast = 1
    ∧ (buildFilterString e n).saturation = 1
    ∧ grainApplied n = false := by
  refine ⟨?_, ?_, ?_, ?_⟩ <;> simp [buildFilterString, grainApplied, h1, h2, h3, h4]

/-- Witness for C10 at the unrecognized name `sepia`. -/
theorem unknown_filter_acts_as_none_witness :
    buildFilterString 2 "sepia" = buildFilterString 2 "none"
    ∧ (buildFilterString 2 "sepia").contrast = 1
    ∧ (buildFilterString 2 "sepia").saturation = 1
    ∧ grainApplied "sepia" = false :=
  unknown_filter_acts_as_none 2 "sepia" (by decide) (by decide) (by decide) (by decide)

end Cam
